import Mathlib

/-!
Verification development for the OpenStack all-in-one container entrypoint
(`apps/openstack/entrypoint.py`) and its health-check probe
(`apps/openstack/healthcheck.py`).

Python strings are embedded as `List Char`; `configparser` configuration
objects as association lists section-name → (option-name → value); the
Keystone identity API as an explicit state (projects / roles / users /
role grants / application credentials); the filesystem, where permissions
matter, as an association list path → permission bits.  Calls to external
processes and to the identity API that can fail are driven by explicit
Boolean oracles, one per `try`/`except` block of the source.
-/

namespace OpenStackEntrypoint

/-- Python `str`, embedded as a list of characters. -/
abbrev Str := List Char

/-- Shorthand to write `Str` literals. -/
abbrev str (s : String) : Str := s.data

/-- Python `s.lower()`. -/
def lowerStr (s : Str) : Str := s.map Char.toLower

/-- Python `s.upper()`. -/
def upperStr (s : Str) : Str := s.map Char.toUpper

/-- One `configparser` section: option name → value, in insertion order. -/
abbrev SectOpts := List (Str × Str)

/-- A `configparser.ConfigParser` object: section name → options, in
insertion order. -/
abbrev Config := List (Str × SectOpts)

/-- Update (or append) the binding of key `k` in an association list. -/
def setAssoc (l : List (Str × Str)) (k v : Str) : List (Str × Str) :=
  match l with
  | [] => [(k, v)]
  | (k', v') :: rest =>
    if k' = k then (k', v) :: rest else (k', v') :: setAssoc rest k v

/-- Python `config[sect][opt] = v` (creating the section if absent, as the
source always does right before assigning). -/
def setOpt (cfg : Config) (sect opt v : Str) : Config :=
  match cfg with
  | [] => [(sect, [(opt, v)])]
  | (s', opts) :: rest =>
    if s' = sect then (s', setAssoc opts opt v) :: rest
    else (s', opts) :: setOpt rest sect opt v

/-- Look a key up in an association list (first binding wins). -/
def getAssoc {α : Type} (l : List (Str × α)) (k : Str) : Option α :=
  (l.find? (fun p => p.1 = k)).map (·.2)

/-- Read `config[sect][opt]`, `none` when section or option is absent. -/
def lookupOpt (cfg : Config) (sect opt : Str) : Option Str :=
  match getAssoc cfg sect with
  | some opts => getAssoc opts opt
  | none => none

/-- Python `rem.split('_', 1)` restricted to the case it returns two parts:
`some (before, after)` splits at the first `'_'`; `none` means the
delimiter does not occur (Python returns a one-element list there). -/
def splitOnce : Str → Option (Str × Str)
  | [] => none
  | c :: cs =>
    if c = '_' then some ([], cs)
    else (splitOnce cs).map (fun p => (c :: p.1, p.2))

/-- One iteration of the `os.environ` scan of `merge_config`
(entrypoint.py lines 87–102): if the variable name starts with
`SERVICE_`, split the remainder at the first `'_'`; a two-part split
writes `config[section.lower()][option.lower()] = value`, otherwise the
variable is skipped. -/
def applyEnvVar (svc : Str) (cfg : Config) (kv : Str × Str) : Config :=
  let pfx := upperStr svc ++ ['_']
  if pfx.isPrefixOf kv.1 then
    match splitOnce (kv.1.drop pfx.length) with
    | some (sect, opt) => setOpt cfg (lowerStr sect) (lowerStr opt) kv.2
    | none => cfg
  else cfg

/-- `merge_config` (entrypoint.py lines 75–113): layer the environment
overrides for `svc` over the template configuration `tmpl`.  `env` is
`os.environ` as a list of (name, value) pairs in iteration order; the
final write of the merged file is not modelled (the merged `Config` is
returned instead). -/
def merge_config (svc : Str) (env : List (Str × Str)) (tmpl : Config) : Config :=
  env.foldl (applyEnvVar svc) tmpl

/-- The environment variable named `k` writes the merged slot
`(sect, opt)`: it carries the service prefix and its remainder splits at
the first `'_'` into parts whose lower-casings are `sect` and `opt`. -/
def targets (svc k sect opt : Str) : Bool :=
  (upperStr svc ++ ['_']).isPrefixOf k &&
    match splitOnce (k.drop (upperStr svc ++ ['_']).length) with
    | some p => lowerStr p.1 == sect && lowerStr p.2 == opt
    | none => false

/-! ### Lemmas about the configuration store -/

theorem getAssoc_cons {α : Type} (a : Str) (b : α) (rest : List (Str × α)) (k : Str) :
    getAssoc ((a, b) :: rest) k = if a = k then some b else getAssoc rest k := by
  by_cases h : a = k
  · simp [getAssoc, List.find?_cons_of_pos, h]
  · simp [getAssoc, List.find?_cons_of_neg, h]

theorem getAssoc_setAssoc (l : List (Str × Str)) (k v k' : Str) :
    getAssoc (setAssoc l k v) k' = if k' = k then some v else getAssoc l k' := by
  induction l with
  | nil =>
    show getAssoc [(k, v)] k' = _
    rw [getAssoc_cons]
    by_cases h : k = k'
    · rw [if_pos h, if_pos h.symm]
    · rw [if_neg h, if_neg (Ne.symm h)]
  | cons hd tl ih =>
    obtain ⟨a, b⟩ := hd
    simp only [setAssoc]
    by_cases ha : a = k
    · rw [if_pos ha, getAssoc_cons, getAssoc_cons]
      by_cases h : a = k'
      · rw [if_pos h, if_pos (h.symm.trans ha)]
      · rw [if_neg h, if_neg h, if_neg (fun hc : k' = k => h (ha.symm ▸ hc.symm))]
    · rw [if_neg ha, getAssoc_cons, getAssoc_cons]
      by_cases h : a = k'
      · rw [if_pos h, if_pos h, if_neg (fun hc : k' = k => ha (h.trans hc))]
      · rw [if_neg h, if_neg h, ih]

theorem lookupOpt_cons (t : Str) (opts : SectOpts) (tl : Config) (sect opt : Str) :
    lookupOpt ((t, opts) :: tl) sect opt =
      if t = sect then getAssoc opts opt else lookupOpt tl sect opt := by
  unfold lookupOpt
  rw [getAssoc_cons]
  by_cases h : t = sect
  · rw [if_pos h, if_pos h]
  · rw [if_neg h, if_neg h]

theorem lookup_setOpt (cfg : Config) (sect opt v sect' opt' : Str) :
    lookupOpt (setOpt cfg sect opt v) sect' opt' =
      if sect' = sect ∧ opt' = opt then some v else lookupOpt cfg sect' opt' := by
  induction cfg with
  | nil =>
    show lookupOpt [(sect, [(opt, v)])] sect' opt' = _
    rw [lookupOpt_cons]
    by_cases hs : sect = sect'
    · rw [if_pos hs, getAssoc_cons]
      by_cases ho : opt = opt'
      · rw [if_pos ho, if_pos ⟨hs.symm, ho.symm⟩]
      · rw [if_neg ho,
          if_neg (fun hc : sect' = sect ∧ opt' = opt => ho hc.2.symm)]
        rfl
    · rw [if_neg hs, if_neg (fun hc : sect' = sect ∧ opt' = opt => hs hc.1.symm)]
  | cons hd tl ih =>
    obtain ⟨t, opts⟩ := hd
    simp only [setOpt]
    by_cases ht : t = sect
    · rw [if_pos ht, lookupOpt_cons, lookupOpt_cons]
      by_cases hs : t = sect'
      · rw [if_pos hs, if_pos hs, getAssoc_setAssoc]
        by_cases ho : opt' = opt
        · rw [if_pos ho, if_pos ⟨hs.symm.trans ht, ho⟩]
        · rw [if_neg ho, if_neg (fun hc => ho hc.2)]
      · rw [if_neg hs, if_neg hs, if_neg (fun hc => hs (ht.trans hc.1.symm))]
    · rw [if_neg ht, lookupOpt_cons, lookupOpt_cons]
      by_cases hs : t = sect'
      · rw [if_pos hs, if_pos hs, if_neg (fun hc => ht (hs.trans hc.1))]
      · rw [if_neg hs, if_neg hs, ih]

/-! ### Lemmas about the override merge -/

theorem applyEnvVar_not_targeting (svc : Str) (cfg : Config) (kv : Str × Str)
    (sect opt : Str) (h : targets svc kv.1 sect opt = false) :
    lookupOpt (applyEnvVar svc cfg kv) sect opt = lookupOpt cfg sect opt := by
  unfold applyEnvVar
  unfold targets at h
  by_cases hpfx : (upperStr svc ++ ['_']).isPrefixOf kv.1
  · simp only [hpfx, Bool.true_and, if_pos rfl] at h ⊢
    cases hsp : splitOnce (kv.1.drop (upperStr svc ++ ['_']).length) with
    | none => simp
    | some p =>
      rw [hsp] at h
      simp only [Bool.and_eq_false_iff, beq_eq_false_iff_ne, ne_eq] at h
      simp only [if_true]
      rw [lookup_setOpt]
      rcases h with h | h
      · rw [if_neg (fun hc : sect = lowerStr p.1 ∧ opt = lowerStr p.2 => h (by rw [hc.1]))]
      · rw [if_neg (fun hc : sect = lowerStr p.1 ∧ opt = lowerStr p.2 => h (by rw [hc.2]))]
  · simp [hpfx]

theorem applyEnvVar_targeting (svc : Str) (cfg : Config) (k v sect opt : Str)
    (h : targets svc k sect opt = true) :
    lookupOpt (applyEnvVar svc cfg (k, v)) sect opt = some v := by
  unfold applyEnvVar
  unfold targets at h
  simp only [Bool.and_eq_true] at h
  obtain ⟨hpfx, hrest⟩ := h
  simp only [hpfx, if_pos rfl]
  cases hsp : splitOnce (k.drop (upperStr svc ++ ['_']).length) with
  | none => rw [hsp] at hrest; exact absurd hrest (by simp)
  | some p =>
    rw [hsp] at hrest
    simp only [Bool.and_eq_true, beq_iff_eq] at hrest
    simp [lookup_setOpt, hrest.1, hrest.2]

theorem merge_config_untouched (svc : Str) (env : List (Str × Str)) (cfg : Config)
    (sect opt : Str) (h : ∀ e ∈ env, targets svc e.1 sect opt = false) :
    lookupOpt (merge_config svc env cfg) sect opt = lookupOpt cfg sect opt := by
  induction env generalizing cfg with
  | nil => rfl
  | cons e rest ih =>
    have h1 : targets svc e.1 sect opt = false := h e (List.mem_cons_self e rest)
    have h2 : ∀ x ∈ rest, targets svc x.1 sect opt = false :=
      fun x hx => h x (List.mem_cons_of_mem e hx)
    calc lookupOpt (merge_config svc (e :: rest) cfg) sect opt
        = lookupOpt (merge_config svc rest (applyEnvVar svc cfg e)) sect opt := rfl
      _ = lookupOpt (applyEnvVar svc cfg e) sect opt := ih (applyEnvVar svc cfg e) h2
      _ = lookupOpt cfg sect opt := applyEnvVar_not_targeting svc cfg e sect opt h1

theorem splitOnce_append (S O : Str) (h : '_' ∉ S) :
    splitOnce (S ++ '_' :: O) = some (S, O) := by
  induction S with
  | nil => simp [splitOnce]
  | cons c cs ih =>
    have hc : c ≠ '_' := fun hh => h (hh ▸ List.mem_cons_self c cs)
    have hcs : '_' ∉ cs := fun hh => h (List.mem_cons_of_mem c hh)
    simp [splitOnce, fun hh : c = '_' => hc hh, ih hcs]

theorem isPrefixOf_append_self (l r : Str) : l.isPrefixOf (l ++ r) = true := by
  rw [List.isPrefixOf_iff_prefix]
  exact List.prefix_append l r

/-- An environment variable literally named `SVC_SECTION_OPTION` (with no
delimiter inside the section part) targets the lower-cased slot. -/
theorem targets_of_shape (svc S O : Str) (hS : '_' ∉ S) :
    targets svc (upperStr svc ++ '_' :: (S ++ '_' :: O)) (lowerStr S) (lowerStr O) = true := by
  unfold targets
  have hk : upperStr svc ++ '_' :: (S ++ '_' :: O) =
      (upperStr svc ++ ['_']) ++ (S ++ '_' :: O) := by simp
  rw [hk, isPrefixOf_append_self, List.drop_left, splitOnce_append S O hS]
  simp

/-- C1 counterexample.  The claim states that every matching-prefix
variable whose remainder does not split into exactly two NON-EMPTY parts
leaves the merged config unchanged.  The variable `FOO_A_` for service
`foo` has remainder `A_`, which splits at the delimiter into the parts
`A` and the EMPTY string; `merge_config` (entrypoint.py line 92) only
checks `len(parts) == 2`, not non-emptiness, so the variable is applied:
the merged config gains `config['a'][''] = 'v'` and is not left
unchanged. -/
theorem C1_counterexample :
    splitOnce ((str "FOO_A_").drop 4) = some (str "A", str "") ∧
    merge_config (str "foo") [(str "FOO_A_", str "v")] [] =
      [(str "a", [(str "", str "v")])] ∧
    [(str "a", [(str "", str "v")])] ≠ ([] : Config) :=
  ⟨by decide, by decide, by decide⟩

/-- C1 (amended): for every environment variable named
`SVC_SECTION_OPTION` — section and option parts possibly empty, the
section part containing no further delimiter — that is not followed by
another variable targeting the same lower-cased slot, the config produced
by `merge_config` contains `config[section.lower()][option.lower()] = V`,
overwriting any value the template had for that key; and every
matching-prefix variable whose remainder contains NO delimiter at all is
skipped and leaves the merged config unchanged.  (The original claim
additionally required variables with an empty section or option part to
be ignored; the counterexample shows they are applied instead.) -/
theorem C1_merge_config_override :
    (∀ (svc : Str) (tmpl : Config) (env1 env2 : List (Str × Str)) (S O V : Str),
      '_' ∉ S →
      (∀ e ∈ env2, targets svc e.1 (lowerStr S) (lowerStr O) = false) →
      lookupOpt (merge_config svc
          (env1 ++ (upperStr svc ++ '_' :: (S ++ '_' :: O), V) :: env2) tmpl)
        (lowerStr S) (lowerStr O) = some V) ∧
    (∀ (svc : Str) (tmpl : Config) (env1 env2 : List (Str × Str)) (k v : Str),
      (upperStr svc ++ ['_']).isPrefixOf k = true →
      splitOnce (k.drop (upperStr svc ++ ['_']).length) = none →
      merge_config svc (env1 ++ (k, v) :: env2) tmpl =
        merge_config svc (env1 ++ env2) tmpl) := by
  constructor
  · intro svc tmpl env1 env2 S O V hS h2
    have hsplit : merge_config svc
        (env1 ++ (upperStr svc ++ '_' :: (S ++ '_' :: O), V) :: env2) tmpl =
        merge_config svc env2
          (applyEnvVar svc (merge_config svc env1 tmpl)
            (upperStr svc ++ '_' :: (S ++ '_' :: O), V)) := by
      simp [merge_config, List.foldl_append]
    rw [hsplit, merge_config_untouched svc env2 _ _ _ h2,
      applyEnvVar_targeting svc _ _ V _ _ (targets_of_shape svc S O hS)]
  · intro svc tmpl env1 env2 k v hp hsp
    have hsp' : splitOnce (k.drop ((upperStr svc).length + 1)) = none := by
      simpa using hsp
    have happly : ∀ cfg, applyEnvVar svc cfg (k, v) = cfg := by
      intro cfg
      unfold applyEnvVar
      simp [hp, hsp']
    simp [merge_config, List.foldl_append, happly]

/-- C1 witness: `FOO_A_B=v` for service `foo` merged over the empty
template yields `config['a']['b'] = 'v'`. -/
theorem C1_witness :
    lookupOpt (merge_config (str "foo")
        ([] ++ (upperStr (str "foo") ++ '_' :: (str "A" ++ '_' :: str "B"), str "v") :: []) [])
      (lowerStr (str "A")) (lowerStr (str "B")) = some (str "v") :=
  C1_merge_config_override.1 (str "foo") [] [] [] (str "A") (str "B") (str "v")
    (by decide) (by simp)

/-! ### Database resolver (`configure_database_connection`) -/

/-- The database-related environment lookups for one service:
`OPENSTACK_DEFAULT_DB_TYPE`, `<SVC>_DB_HOST`, `<SVC>_DB_USER`,
`<SVC>_DB_PASSWORD`, `<SVC>_DB_NAME` (`none` = variable unset). -/
structure DbEnv where
  defaultDbType : Option Str
  dbHost : Option Str
  dbUser : Option Str
  dbPass : Option Str
  dbName : Option Str

/-- The embedded (SQLite) connection string built on entrypoint.py lines
132–133: `sqlite:///` followed by `/var/lib/openstack/<svc>.sqlite`. -/
def sqliteConn (svc : Str) : Str :=
  str "sqlite:///" ++ (str "/var/lib/openstack/" ++ lowerStr svc ++ str ".sqlite")

/-- The external (PostgreSQL) connection string built on entrypoint.py
lines 137–140, with user, password and database name defaulting to the
lower-cased service name.  (The host default is unreachable: this string
is only built when the host variable is set.) -/
def pgConn (svc : Str) (env : DbEnv) : Str :=
  str "postgresql://" ++ env.dbUser.getD (lowerStr svc) ++ str ":" ++
    env.dbPass.getD (lowerStr svc) ++ str "@" ++ env.dbHost.getD [] ++ str "/" ++
    env.dbName.getD (lowerStr svc)

/-- `configure_database_connection` (entrypoint.py lines 115–153): choose
SQLite when no service DB host is set, or the global default DB type is
`sqlite` (case-insensitively), or the host is `localhost`; otherwise
PostgreSQL; then write `config['database']['connection']`. -/
def configure_database_connection (svc : Str) (env : DbEnv) (cfg : Config) : Config :=
  let defaultDbType := env.defaultDbType.getD (str "postgresql")
  let conn :=
    if env.dbHost = none ∨ lowerStr defaultDbType = str "sqlite" ∨
        env.dbHost = some (str "localhost") then
      sqliteConn svc
    else
      pgConn svc env
  setOpt cfg (str "database") (str "connection") conn

theorem sqliteConn_ne_pgConn (svc svc' : Str) (env : DbEnv) :
    sqliteConn svc ≠ pgConn svc' env := by
  intro h
  have hs : (sqliteConn svc).take 1 = ['s'] := rfl
  have hp : (pgConn svc' env).take 1 = ['p'] := rfl
  have h1 : (['s'] : Str) = ['p'] := by rw [← hs, ← hp, h]
  simp at h1

/-- C2: `configure_database_connection` sets `database.connection` to the
embedded form `sqlite:///<path containing the lower-cased service name>`
if and only if the service DB host variable is unset, or the global
default-database-type variable (defaulting to `postgresql`) is `sqlite`
after lower-casing, or the host equals `localhost`; in every other case
it sets `postgresql://<user>:<password>@<host>/<name>` with user,
password and name defaulting to the lower-cased service name. -/
theorem C2_database_resolution (svc : Str) (env : DbEnv) (cfg : Config) :
    (lookupOpt (configure_database_connection svc env cfg)
        (str "database") (str "connection") = some (sqliteConn svc) ↔
      env.dbHost = none ∨
        lowerStr (env.defaultDbType.getD (str "postgresql")) = str "sqlite" ∨
        env.dbHost = some (str "localhost")) ∧
    (¬ (env.dbHost = none ∨
        lowerStr (env.defaultDbType.getD (str "postgresql")) = str "sqlite" ∨
        env.dbHost = some (str "localhost")) →
      lookupOpt (configure_database_connection svc env cfg)
        (str "database") (str "connection") = some (pgConn svc env)) := by
  have hl : lookupOpt (configure_database_connection svc env cfg)
      (str "database") (str "connection") =
      some (if env.dbHost = none ∨
          lowerStr (env.defaultDbType.getD (str "postgresql")) = str "sqlite" ∨
          env.dbHost = some (str "localhost") then sqliteConn svc else pgConn svc env) := by
    unfold configure_database_connection
    rw [lookup_setOpt, if_pos ⟨rfl, rfl⟩]
  constructor
  · constructor
    · intro h
      by_contra hc
      rw [if_neg hc] at hl
      rw [hl] at h
      exact sqliteConn_ne_pgConn svc svc env (Option.some.inj h).symm
    · intro hc
      rw [if_pos hc] at hl
      exact hl
  · intro hc
    rw [if_neg hc] at hl
    exact hl

/-- C2 witness: with `GLANCE_DB_HOST=db.example` and no other database
variables set, Glance resolves to the external PostgreSQL form with all
remaining fields defaulted to the service name. -/
theorem C2_witness :
    lookupOpt (configure_database_connection (str "glance")
        ⟨none, some (str "db.example"), none, none, none⟩ [])
      (str "database") (str "connection") =
      some (pgConn (str "glance") ⟨none, some (str "db.example"), none, none, none⟩) :=
  (C2_database_resolution (str "glance")
    ⟨none, some (str "db.example"), none, none, none⟩ []).2 (by decide)

/-! ### Application-credential wiring
(`configure_service_with_application_credential`) -/

/-- A persisted application-credential record `{id, name, secret}` as
stored in `<svc>_app_cred.json`. -/
structure AppCred where
  id : Str
  name : Str
  secret : Str
deriving DecidableEq

/-- The on-disk credential store `/var/lib/openstack/app_credentials/`,
viewed as a map from service name to the parsed record of that
service's `_app_cred.json` file (`none` = file does not exist). -/
abbrev CredStore := Str → Option AppCred

/-- `configure_service_with_application_credential` (entrypoint.py lines
299–329): when no credential file exists for `svc`, log a warning and
return with the config untouched (lines 308–310); otherwise write the
four application-credential fields into `[keystone_authtoken]`. -/
def configure_service_with_application_credential
    (store : CredStore) (svc : Str) (cfg : Config) : Config :=
  match store svc with
  | none => cfg
  | some cred =>
    let cfg := setOpt cfg (str "keystone_authtoken") (str "auth_type")
      (str "v3applicationcredential")
    let cfg := setOpt cfg (str "keystone_authtoken") (str "auth_url")
      (str "http://localhost:5000/v3")
    let cfg := setOpt cfg (str "keystone_authtoken")
      (str "application_credential_id") cred.id
    setOpt cfg (str "keystone_authtoken")
      (str "application_credential_secret") cred.secret

/-- C4: when a credential record file exists for a service, the wiring
step sets the application-credential auth type together with the id and
secret read from that file in `[keystone_authtoken]`, and writes no
password-based auth field for that section (each password field is left
exactly as it was in the incoming config). -/
theorem C4_wiring_uses_credential_file (store : CredStore) (svc : Str) (cfg : Config)
    (cred : AppCred) (h : store svc = some cred) :
    lookupOpt (configure_service_with_application_credential store svc cfg)
        (str "keystone_authtoken") (str "auth_type") =
        some (str "v3applicationcredential") ∧
    lookupOpt (configure_service_with_application_credential store svc cfg)
        (str "keystone_authtoken") (str "application_credential_id") = some cred.id ∧
    lookupOpt (configure_service_with_application_credential store svc cfg)
        (str "keystone_authtoken") (str "application_credential_secret") =
        some cred.secret ∧
    lookupOpt (configure_service_with_application_credential store svc cfg)
        (str "keystone_authtoken") (str "auth_url") =
        some (str "http://localhost:5000/v3") ∧
    (∀ opt ∈ [str "username", str "password", str "project_name",
        str "user_domain_name", str "project_domain_name"],
      lookupOpt (configure_service_with_application_credential store svc cfg)
          (str "keystone_authtoken") opt =
        lookupOpt cfg (str "keystone_authtoken") opt) := by
  unfold configure_service_with_application_credential
  rw [h]
  refine ⟨?_, ?_, ?_, ?_, ?_⟩
  · simp +decide [lookup_setOpt]
  · simp +decide [lookup_setOpt]
  · simp +decide [lookup_setOpt]
  · simp +decide [lookup_setOpt]
  · intro opt hopt
    fin_cases hopt <;> simp +decide [lookup_setOpt]

/-- C4 witness: wiring Glance with a concrete credential record. -/
theorem C4_witness :
    lookupOpt (configure_service_with_application_credential
        (fun s => if s = str "glance" then some ⟨str "id1", str "n1", str "s1"⟩ else none)
        (str "glance") [])
      (str "keystone_authtoken") (str "application_credential_id") = some (str "id1") :=
  (C4_wiring_uses_credential_file
    (fun s => if s = str "glance" then some ⟨str "id1", str "n1", str "s1"⟩ else none)
    (str "glance") [] ⟨str "id1", str "n1", str "s1"⟩ (by decide)).2.1

/-- C5 counterexample.  The claim states that when no credential record
file exists the wiring step sets password-based auth fields (username,
password, project, domain) in `[keystone_authtoken]`.  In fact
`configure_service_with_application_credential` (entrypoint.py lines
308–310) logs a warning and returns with the config completely
unchanged: for Glance with an empty store and empty template the result
is the empty config and no username field is ever written. -/
theorem C5_counterexample :
    configure_service_with_application_credential (fun _ => none) (str "glance") [] =
      ([] : Config) ∧
    lookupOpt (configure_service_with_application_credential (fun _ => none)
        (str "glance") [])
      (str "keystone_authtoken") (str "username") = none :=
  ⟨rfl, rfl⟩

/-! ### Filesystem permissions model -/

/-- The filesystem restricted to what permissions-related claims need:
a map path → permission bits, in creation order. -/
abbrev FS := List (Str × Nat)

/-- Permission bits of the file at `p`, `none` when it does not exist. -/
def fsGet (fs : FS) (p : Str) : Option Nat := getAssoc fs p

/-- `open(p, 'w')`: creates the file with mode `0o644` (`0o666` masked by
the default umask `022`) when absent; writing an existing file keeps its
permission bits. -/
def fsWrite (fs : FS) (p : Str) : FS :=
  match fsGet fs p with
  | some _ => fs
  | none => fs ++ [(p, 0o644)]

/-- `os.walk(dir)` + `os.chmod(file, m)` over every file below `dir`
(entrypoint.py lines 1202–1206). -/
def chmodDir (fs : FS) (dir : Str) (m : Nat) : FS :=
  fs.map (fun e => if dir.isPrefixOf e.1 then (e.1, m) else e)

/-- The Keystone token-encryption key file `/etc/keystone/fernet-keys/0`. -/
def fernetKey0 : Str := str "/etc/keystone/fernet-keys/0"

/-- The Keystone credential-encryption key file
`/etc/keystone/credential-keys/0`. -/
def credentialKey0 : Str := str "/etc/keystone/credential-keys/0"

/-- `init_keystone_fernet_keys` (entrypoint.py lines 1156–1208): write
each of the two key files when absent, then walk both key directories
and chmod every file inside to `0o600`. -/
def init_keystone_fernet_keys (fs : FS) : FS :=
  let fs1 := if (fsGet fs fernetKey0).isNone then fsWrite fs fernetKey0 else fs
  let fs2 := if (fsGet fs1 credentialKey0).isNone then fsWrite fs1 credentialKey0 else fs1
  let fs3 := chmodDir fs2 (str "/etc/keystone/fernet-keys") 0o600
  chmodDir fs3 (str "/etc/keystone/credential-keys") 0o600

/-! ### Credential bootstrap (`create_application_credentials`) -/

/-- The identity service's state as observed through the Keystone API:
existing projects, roles and users (by name), role grants
(user, project, role) and issued application credentials (by owning
service name). -/
structure KeystoneState where
  projects : List Str
  roles : List Str
  users : List Str
  grants : List (Str × Str × Str)
  appCreds : List Str
deriving Inhabited, DecidableEq

/-- COARSE failure oracle for one bootstrap run, used by the
idempotence and file-permission claims, whose conclusions only concern
runs where the collapsed steps succeeded.  `adminOk` collapses the
administrative session and the project/role phase into one
pre-mutation failure; the per-service user step and the record-file
write are assumed to succeed.  `grantOk svc` covers the
role-assignment block (entrypoint.py lines 235–251), whose failures
only log a warning and continue.  `credOk svc` covers the per-service
application-credential block (lines 258–292), whose failures log an
error and skip that service.  The error-path claims use the
fine-grained `BootstrapOps` model below, with one flag per failable
operation; the bridge `create_application_credentials_ops_lift` shows
the two models agree on coarse oracles. -/
structure BootstrapEnv where
  adminOk : Bool
  grantOk : Str → Bool
  credOk : Str → Bool

/-- `keystone.projects.find(name=...)` / `projects.create` (lines
200–209): reuse an existing project of that name, else create it. -/
def ensureProject (st : KeystoneState) (name : Str) : KeystoneState :=
  if name ∈ st.projects then st
  else { st with projects := st.projects ++ [name] }

/-- `keystone.roles.find(name=...)` / `roles.create` (lines 212–217). -/
def ensureRole (st : KeystoneState) (name : Str) : KeystoneState :=
  if name ∈ st.roles then st
  else { st with roles := st.roles ++ [name] }

/-- `keystone.users.find(name=...)` / `users.create` (lines 222–232). -/
def ensureUser (st : KeystoneState) (name : Str) : KeystoneState :=
  if name ∈ st.users then st
  else { st with users := st.users ++ [name] }

/-- The role-grant step (lines 234–251): list the existing assignments
of (user, service project, service role) and grant only when none
exist; any exception in the block is logged as a warning and ignored. -/
def ensureGrant (env : BootstrapEnv) (st : KeystoneState) (svc : Str) : KeystoneState :=
  if env.grantOk svc then
    if (svc, str "service", str "service") ∈ st.grants then st
    else { st with grants := st.grants ++ [(svc, str "service", str "service")] }
  else st

/-- The six dependent services of the bootstrap loop (line 183). -/
def services : List Str :=
  [str "glance", str "cinder", str "neutron", str "ironic", str "nova", str "horizon"]

/-- The credential record file written for one service (line 286). -/
def credPath (svc : Str) : Str :=
  str "/var/lib/openstack/app_credentials/" ++ svc ++ str "_app_cred.json"

/-- One iteration of the service loop (lines 220–292) under the coarse
oracle, over an accumulator (identity state, issued-credential dict,
filesystem): ensure the service user, ensure the role grant, and —
when the application-credential block succeeds — issue the credential
and persist its record file with a plain `open(..., 'w')` (no
`chmod`).  The user step and the record write are assumed to succeed
here; `bootstrapLoopOps` below models their failures too. -/
def bootstrapService (env : BootstrapEnv) (acc : KeystoneState × List Str × FS)
    (svc : Str) : KeystoneState × List Str × FS :=
  let st := ensureUser acc.1 svc
  let st := ensureGrant env st svc
  if env.credOk svc then
    ({ st with appCreds := st.appCreds ++ [svc] }, acc.2.1 ++ [svc],
      fsWrite acc.2.2 (credPath svc))
  else (st, acc.2.1, acc.2.2)

/-- Outcome of `create_application_credentials`: either a normal return
carrying the final identity state, the dict of issued credentials keyed
by service name, and the filesystem, or a process exit.  The exit
constructor exists so the claimed fatality is expressible; the source
never produces it. -/
inductive BootResult
  | ok (st : KeystoneState) (creds : List Str) (fs : FS)
  | exitProcess (code : Nat)
deriving DecidableEq

/-- `create_application_credentials` (entrypoint.py lines 175–297)
under the coarse oracle.  When `adminOk` is false the collapsed
session/project/role phase raised before any state was mutated: the
outer `except` logs the error and the function returns the empty
credential dict — the process does not exit.  Otherwise the service
project and role are looked up or created and the six services are
processed in order.  See `create_application_credentials_ops` below
for the per-operation error model and the bridge lemma relating the
two. -/
def create_application_credentials (env : BootstrapEnv) (st : KeystoneState)
    (fs : FS) : BootResult :=
  if env.adminOk then
    let st1 := ensureProject st (str "service")
    let st2 := ensureRole st1 (str "service")
    let r := services.foldl (bootstrapService env) (st2, [], fs)
    .ok r.1 r.2.1 r.2.2
  else .ok st [] fs

/-- The identity state after a bootstrap run (the run always returns
normally; the exit branch is dead code kept for totality). -/
def bootState (env : BootstrapEnv) (st : KeystoneState) (fs : FS) : KeystoneState :=
  match create_application_credentials env st fs with
  | .ok st' _ _ => st'
  | .exitProcess _ => st

/-- Boot-time file effects relevant to permissions, in the order `main`
executes them: `prepare_service_directories` initializes the Keystone
key material (chmod-ing it to `0o600`), then `configure_keystone` runs
the credential bootstrap, which writes one record file per issued
credential; all of this completes before `start_services` launches any
service process. -/
def bootFilesystem (env : BootstrapEnv) (st : KeystoneState) (fs : FS) : FS :=
  let fs1 := init_keystone_fernet_keys fs
  match create_application_credentials env st fs1 with
  | .ok _ _ fs2 => fs2
  | .exitProcess _ => fs1

/-! ### Lemmas about the bootstrap state machine -/

theorem ensureProject_of_mem (st : KeystoneState) (n : Str) (h : n ∈ st.projects) :
    ensureProject st n = st := by simp [ensureProject, h]

theorem ensureRole_of_mem (st : KeystoneState) (n : Str) (h : n ∈ st.roles) :
    ensureRole st n = st := by simp [ensureRole, h]

theorem ensureUser_of_mem (st : KeystoneState) (n : Str) (h : n ∈ st.users) :
    ensureUser st n = st := by simp [ensureUser, h]

theorem ensureGrant_of_mem (env : BootstrapEnv) (st : KeystoneState) (svc : Str)
    (h : (svc, str "service", str "service") ∈ st.grants) :
    ensureGrant env st svc = st := by
  unfold ensureGrant
  split
  · simp [h]
  · rfl

theorem ensureProject_projects_mem (st : KeystoneState) (n : Str) :
    n ∈ (ensureProject st n).projects := by
  unfold ensureProject
  split
  · assumption
  · simp

theorem ensureRole_roles_mem (st : KeystoneState) (n : Str) :
    n ∈ (ensureRole st n).roles := by
  unfold ensureRole
  split
  · assumption
  · simp

theorem ensureRole_projects (st : KeystoneState) (n : Str) :
    (ensureRole st n).projects = st.projects := by
  unfold ensureRole
  split <;> rfl

theorem ensureProject_roles (st : KeystoneState) (n : Str) :
    (ensureProject st n).roles = st.roles := by
  unfold ensureProject
  split <;> rfl

theorem ensureUser_projects (st : KeystoneState) (n : Str) :
    (ensureUser st n).projects = st.projects := by
  unfold ensureUser
  split <;> rfl

theorem ensureUser_roles (st : KeystoneState) (n : Str) :
    (ensureUser st n).roles = st.roles := by
  unfold ensureUser
  split <;> rfl

theorem ensureUser_grants (st : KeystoneState) (n : Str) :
    (ensureUser st n).grants = st.grants := by
  unfold ensureUser
  split <;> rfl

theorem ensureUser_users_mono (st : KeystoneState) (n m : Str) (h : m ∈ st.users) :
    m ∈ (ensureUser st n).users := by
  unfold ensureUser
  split
  · exact h
  · simp [h]

theorem ensureUser_users_self (st : KeystoneState) (n : Str) :
    n ∈ (ensureUser st n).users := by
  unfold ensureUser
  split
  · assumption
  · simp

theorem ensureGrant_projects (env : BootstrapEnv) (st : KeystoneState) (svc : Str) :
    (ensureGrant env st svc).projects = st.projects := by
  unfold ensureGrant
  split
  · split <;> rfl
  · rfl

theorem ensureGrant_roles (env : BootstrapEnv) (st : KeystoneState) (svc : Str) :
    (ensureGrant env st svc).roles = st.roles := by
  unfold ensureGrant
  split
  · split <;> rfl
  · rfl

theorem ensureGrant_users (env : BootstrapEnv) (st : KeystoneState) (svc : Str) :
    (ensureGrant env st svc).users = st.users := by
  unfold ensureGrant
  split
  · split <;> rfl
  · rfl

theorem ensureGrant_grants_mono (env : BootstrapEnv) (st : KeystoneState) (svc : Str)
    (g : Str × Str × Str) (h : g ∈ st.grants) : g ∈ (ensureGrant env st svc).grants := by
  unfold ensureGrant
  split
  · split
    · exact h
    · simp [h]
  · exact h

theorem ensureGrant_grants_self (env : BootstrapEnv) (st : KeystoneState) (svc : Str)
    (h : env.grantOk svc = true) :
    (svc, str "service", str "service") ∈ (ensureGrant env st svc).grants := by
  unfold ensureGrant
  rw [h]
  simp only [if_true]
  split
  · assumption
  · simp

theorem bootstrapService_projects (env : BootstrapEnv)
    (acc : KeystoneState × List Str × FS) (svc : Str) :
    (bootstrapService env acc svc).1.projects = acc.1.projects := by
  unfold bootstrapService
  dsimp only
  split <;> simp [ensureGrant_projects, ensureUser_projects]

theorem bootstrapService_roles (env : BootstrapEnv)
    (acc : KeystoneState × List Str × FS) (svc : Str) :
    (bootstrapService env acc svc).1.roles = acc.1.roles := by
  unfold bootstrapService
  dsimp only
  split <;> simp [ensureGrant_roles, ensureUser_roles]

theorem bootstrapService_users_mono (env : BootstrapEnv)
    (acc : KeystoneState × List Str × FS) (svc m : Str) (h : m ∈ acc.1.users) :
    m ∈ (bootstrapService env acc svc).1.users := by
  unfold bootstrapService
  dsimp only
  split <;> simp [ensureGrant_users, ensureUser_users_mono _ _ _ h]

theorem bootstrapService_users_self (env : BootstrapEnv)
    (acc : KeystoneState × List Str × FS) (svc : Str) :
    svc ∈ (bootstrapService env acc svc).1.users := by
  unfold bootstrapService
  dsimp only
  split <;> simp [ensureGrant_users, ensureUser_users_self]

theorem bootstrapService_grants_mono (env : BootstrapEnv)
    (acc : KeystoneState × List Str × FS) (svc : Str) (g : Str × Str × Str)
    (h : g ∈ acc.1.grants) : g ∈ (bootstrapService env acc svc).1.grants := by
  unfold bootstrapService
  dsimp only
  have hg : g ∈ (ensureGrant env (ensureUser acc.1 svc) svc).grants :=
    ensureGrant_grants_mono env _ svc g (by rw [ensureUser_grants]; exact h)
  split <;> simpa using hg

theorem bootstrapService_grants_self (env : BootstrapEnv)
    (acc : KeystoneState × List Str × FS) (svc : Str) (h : env.grantOk svc = true) :
    (svc, str "service", str "service") ∈ (bootstrapService env acc svc).1.grants := by
  unfold bootstrapService
  dsimp only
  have hg := ensureGrant_grants_self env (ensureUser acc.1 svc) svc h
  split <;> simpa using hg

theorem foldServices_projects (env : BootstrapEnv) :
    ∀ (l : List Str) (acc : KeystoneState × List Str × FS),
      ((l.foldl (bootstrapService env) acc).1).projects = acc.1.projects := by
  intro l
  induction l with
  | nil => intro acc; rfl
  | cons s t ih =>
    intro acc
    rw [List.foldl_cons, ih, bootstrapService_projects]

theorem foldServices_roles (env : BootstrapEnv) :
    ∀ (l : List Str) (acc : KeystoneState × List Str × FS),
      ((l.foldl (bootstrapService env) acc).1).roles = acc.1.roles := by
  intro l
  induction l with
  | nil => intro acc; rfl
  | cons s t ih =>
    intro acc
    rw [List.foldl_cons, ih, bootstrapService_roles]

theorem foldServices_users_mono (env : BootstrapEnv) :
    ∀ (l : List Str) (acc : KeystoneState × List Str × FS) (m : Str),
      m ∈ acc.1.users → m ∈ ((l.foldl (bootstrapService env) acc).1).users := by
  intro l
  induction l with
  | nil => intro acc m h; exact h
  | cons s t ih =>
    intro acc m h
    rw [List.foldl_cons]
    exact ih _ m (bootstrapService_users_mono env acc s m h)

theorem foldServices_users_self (env : BootstrapEnv) :
    ∀ (l : List Str) (acc : KeystoneState × List Str × FS) (svc : Str),
      svc ∈ l → svc ∈ ((l.foldl (bootstrapService env) acc).1).users := by
  intro l
  induction l with
  | nil => intro acc svc h; cases h
  | cons s t ih =>
    intro acc svc h
    rw [List.foldl_cons]
    rcases List.mem_cons.mp h with h | h
    · subst h
      exact foldServices_users_mono env t _ svc (bootstrapService_users_self env acc svc)
    · exact ih _ svc h

theorem foldServices_grants_mono (env : BootstrapEnv) :
    ∀ (l : List Str) (acc : KeystoneState × List Str × FS) (g : Str × Str × Str),
      g ∈ acc.1.grants → g ∈ ((l.foldl (bootstrapService env) acc).1).grants := by
  intro l
  induction l with
  | nil => intro acc g h; exact h
  | cons s t ih =>
    intro acc g h
    rw [List.foldl_cons]
    exact ih _ g (bootstrapService_grants_mono env acc s g h)

theorem foldServices_grants_self (env : BootstrapEnv) :
    ∀ (l : List Str) (acc : KeystoneState × List Str × FS) (svc : Str),
      svc ∈ l → env.grantOk svc = true →
      (svc, str "service", str "service") ∈ ((l.foldl (bootstrapService env) acc).1).grants := by
  intro l
  induction l with
  | nil => intro acc svc h; cases h
  | cons s t ih =>
    intro acc svc h hok
    rw [List.foldl_cons]
    rcases List.mem_cons.mp h with h | h
    · subst h
      exact foldServices_grants_mono env t _ _ (bootstrapService_grants_self env acc svc hok)
    · exact ih _ svc h hok

theorem bootstrapService_preserves (env : BootstrapEnv)
    (acc : KeystoneState × List Str × FS) (svc : Str)
    (hu : svc ∈ acc.1.users) (hg : (svc, str "service", str "service") ∈ acc.1.grants) :
    (bootstrapService env acc svc).1.projects = acc.1.projects ∧
    (bootstrapService env acc svc).1.roles = acc.1.roles ∧
    (bootstrapService env acc svc).1.users = acc.1.users ∧
    (bootstrapService env acc svc).1.grants = acc.1.grants := by
  unfold bootstrapService
  dsimp only
  rw [ensureUser_of_mem _ _ hu, ensureGrant_of_mem _ _ _ hg]
  split <;> simp

theorem foldServices_preserves (env : BootstrapEnv) :
    ∀ (l : List Str) (acc : KeystoneState × List Str × FS),
      (∀ svc ∈ l, svc ∈ acc.1.users ∧ (svc, str "service", str "service") ∈ acc.1.grants) →
      ((l.foldl (bootstrapService env) acc).1).projects = acc.1.projects ∧
      ((l.foldl (bootstrapService env) acc).1).roles = acc.1.roles ∧
      ((l.foldl (bootstrapService env) acc).1).users = acc.1.users ∧
      ((l.foldl (bootstrapService env) acc).1).grants = acc.1.grants := by
  intro l
  induction l with
  | nil => intro acc h; exact ⟨rfl, rfl, rfl, rfl⟩
  | cons s t ih =>
    intro acc h
    have hs := h s (List.mem_cons_self s t)
    have hstep := bootstrapService_preserves env acc s hs.1 hs.2
    have htail : ∀ svc ∈ t, svc ∈ (bootstrapService env acc s).1.users ∧
        (svc, str "service", str "service") ∈ (bootstrapService env acc s).1.grants := by
      intro svc hsvc
      rw [hstep.2.2.1, hstep.2.2.2]
      exact h svc (List.mem_cons_of_mem s hsvc)
    have hrec := ih (bootstrapService env acc s) htail
    rw [List.foldl_cons]
    exact ⟨hrec.1.trans hstep.1, hrec.2.1.trans hstep.2.1,
      hrec.2.2.1.trans hstep.2.2.1, hrec.2.2.2.trans hstep.2.2.2⟩

/-- The entities the bootstrap establishes all exist. -/
def bootstrapped (st : KeystoneState) : Prop :=
  str "service" ∈ st.projects ∧ str "service" ∈ st.roles ∧
    ∀ svc ∈ services, svc ∈ st.users ∧ (svc, str "service", str "service") ∈ st.grants

theorem bootState_bootstrapped (env : BootstrapEnv) (st : KeystoneState) (fs : FS)
    (ha : env.adminOk = true) (hg : ∀ s, env.grantOk s = true) :
    bootstrapped (bootState env st fs) := by
  unfold bootState create_application_credentials
  rw [ha]
  simp only [if_true]
  refine ⟨?_, ?_, ?_⟩
  · rw [foldServices_projects, ensureRole_projects]
    exact ensureProject_projects_mem st (str "service")
  · rw [foldServices_roles]
    exact ensureRole_roles_mem _ (str "service")
  · intro svc hsvc
    exact ⟨foldServices_users_self env services _ svc hsvc,
      foldServices_grants_self env services _ svc hsvc (hg svc)⟩

theorem bootState_preserves (env2 : BootstrapEnv) (st : KeystoneState) (fs2 : FS)
    (h : bootstrapped st) :
    (bootState env2 st fs2).projects = st.projects ∧
    (bootState env2 st fs2).roles = st.roles ∧
    (bootState env2 st fs2).users = st.users ∧
    (bootState env2 st fs2).grants = st.grants := by
  unfold bootState create_application_credentials
  cases ha : env2.adminOk with
  | false => simp [ha]
  | true =>
    simp only [ha, if_true]
    rw [ensureProject_of_mem st _ h.1, ensureRole_of_mem st _ h.2.1]
    exact foldServices_preserves env2 services (st, [], fs2) h.2.2

/-- C3: every lookup-or-create step of the credential bootstrap
(project, role, per-service principal, role grant) treats prior
existence as success and reuses the existing entity unchanged; and
re-running the whole bootstrap against a state produced by a successful
run creates no duplicate project, role, user, or role grant — those
four components of the identity state are left exactly as they were. -/
theorem C3_bootstrap_idempotent :
    (∀ (st : KeystoneState) (n : Str), n ∈ st.projects → ensureProject st n = st) ∧
    (∀ (st : KeystoneState) (n : Str), n ∈ st.roles → ensureRole st n = st) ∧
    (∀ (st : KeystoneState) (n : Str), n ∈ st.users → ensureUser st n = st) ∧
    (∀ (env : BootstrapEnv) (st : KeystoneState) (svc : Str),
      (svc, str "service", str "service") ∈ st.grants → ensureGrant env st svc = st) ∧
    (∀ (env1 env2 : BootstrapEnv) (st : KeystoneState) (fs1 fs2 : FS),
      env1.adminOk = true → (∀ s, env1.grantOk s = true) →
      (bootState env2 (bootState env1 st fs1) fs2).projects =
          (bootState env1 st fs1).projects ∧
        (bootState env2 (bootState env1 st fs1) fs2).roles =
          (bootState env1 st fs1).roles ∧
        (bootState env2 (bootState env1 st fs1) fs2).users =
          (bootState env1 st fs1).users ∧
        (bootState env2 (bootState env1 st fs1) fs2).grants =
          (bootState env1 st fs1).grants) :=
  ⟨ensureProject_of_mem, ensureRole_of_mem, ensureUser_of_mem, ensureGrant_of_mem,
    fun env1 env2 st fs1 fs2 ha hg =>
      bootState_preserves env2 _ fs2 (bootState_bootstrapped env1 st fs1 ha hg)⟩

/-- C3 witness: a first bootstrap run from the empty identity state
followed by a second run leaves the project list unchanged. -/
theorem C3_witness :
    (bootState ⟨true, fun _ => true, fun _ => true⟩
        (bootState ⟨true, fun _ => true, fun _ => true⟩ ⟨[], [], [], [], []⟩ []) []).projects =
      (bootState ⟨true, fun _ => true, fun _ => true⟩ ⟨[], [], [], [], []⟩ []).projects :=
  (C3_bootstrap_idempotent.2.2.2.2 ⟨true, fun _ => true, fun _ => true⟩
    ⟨true, fun _ => true, fun _ => true⟩ ⟨[], [], [], [], []⟩ [] [] rfl (fun _ => rfl)).1

theorem bootstrapService_creds (env : BootstrapEnv)
    (acc : KeystoneState × List Str × FS) (svc : Str) :
    (bootstrapService env acc svc).2.1 =
      if env.credOk svc then acc.2.1 ++ [svc] else acc.2.1 := by
  unfold bootstrapService
  dsimp only
  split <;> rfl

theorem foldServices_creds (env : BootstrapEnv) :
    ∀ (l : List Str) (acc : KeystoneState × List Str × FS),
      (l.foldl (bootstrapService env) acc).2.1 =
        acc.2.1 ++ l.filter (fun s => env.credOk s) := by
  intro l
  induction l with
  | nil => intro acc; simp
  | cons s t ih =>
    intro acc
    rw [List.foldl_cons, ih, bootstrapService_creds, List.filter_cons]
    cases h : env.credOk s <;> simp

/-! ### Fine-grained error model of `create_application_credentials`

The coarse `BootstrapEnv` model above is enough for the idempotence and
file-permission claims, but it collapses the function's error paths.
The model below gives every operation that can raise its own oracle,
following the source's exception routing exactly:

* the administrative session and the project find-or-create phase
  (entrypoint.py lines 188–209) can raise BEFORE any mutation;
* the role find-or-create phase (lines 212–217) can raise AFTER the
  project phase already mutated the identity state — the outer `except`
  (294–296) then returns with that mutation in place;
* the user find-or-create block (222–232) has no local `try`: an
  exception there propagates to the outer `except` and stops the loop,
  and the function returns the partial credential dict built so far;
* the role-grant block (235–251) has its own `except` that only warns;
* within the per-service credential `try` (258–292), the creation call
  and the dict update (272–283) precede the record-file write
  (286–287): a failed write is caught AFTER the dict entry was added,
  so the dict keeps a service whose file was never written. -/

/-- One success flag per failable operation of
`create_application_credentials` (entrypoint.py lines 175–297). -/
structure BootstrapOps where
  /-- Establishing the admin auth/session/client (lines 188–197). -/
  sessionOk : Bool
  /-- The project find-or-create phase completes (lines 200–209);
  `false` means it raised without creating. -/
  projectOk : Bool
  /-- The role find-or-create phase completes (lines 212–217). -/
  roleOk : Bool
  /-- The user find-or-create block for one service (lines 222–232);
  `false` aborts the whole loop via the outer `except`. -/
  userOk : Str → Bool
  /-- The role-assignment block (lines 235–251); `false` only warns. -/
  grantOk : Str → Bool
  /-- The application-credential creation call, after which the dict
  entry is stored (lines 258–283). -/
  credOk : Str → Bool
  /-- The record-file write (lines 286–287), inside the same `try`. -/
  persistOk : Str → Bool

/-- The role-grant step (lines 234–251) parameterized by its own
success flag, same body as `ensureGrant`. -/
def ensureGrantOp (ok : Bool) (st : KeystoneState) (svc : Str) : KeystoneState :=
  if ok then
    if (svc, str "service", str "service") ∈ st.grants then st
    else { st with grants := st.grants ++ [(svc, str "service", str "service")] }
  else st

/-- The service loop (lines 220–292) under the fine-grained oracle,
with Python's control flow: a user-step failure returns the
accumulator built so far (the outer `except` ends the loop); a
credential-creation failure skips the service; a record-write failure
happens after the dict and remote-credential updates, so those are
kept while no file is written. -/
def bootstrapLoopOps (ops : BootstrapOps) :
    List Str → KeystoneState × List Str × FS → KeystoneState × List Str × FS
  | [], acc => acc
  | svc :: rest, acc =>
    if ops.userOk svc then
      let st := ensureUser acc.1 svc
      let st := ensureGrantOp (ops.grantOk svc) st svc
      if ops.credOk svc then
        let st := { st with appCreds := st.appCreds ++ [svc] }
        let creds := acc.2.1 ++ [svc]
        let fs := if ops.persistOk svc then fsWrite acc.2.2 (credPath svc) else acc.2.2
        bootstrapLoopOps ops rest (st, creds, fs)
      else
        bootstrapLoopOps ops rest (st, acc.2.1, acc.2.2)
    else
      acc

/-- `create_application_credentials` (entrypoint.py lines 175–297)
under the fine-grained oracle.  Every failure path ends in a normal
return (`BootResult.ok`): the function contains no `sys.exit`.  A
session or project-phase failure returns before any mutation; a
role-phase failure returns with the project phase's mutation in
place; a user-step failure returns the partial dict. -/
def create_application_credentials_ops (ops : BootstrapOps) (st : KeystoneState)
    (fs : FS) : BootResult :=
  if ops.sessionOk = false then BootResult.ok st [] fs
  else if ops.projectOk = false then BootResult.ok st [] fs
  else
    let st1 := ensureProject st (str "service")
    if ops.roleOk = false then BootResult.ok st1 [] fs
    else
      let st2 := ensureRole st1 (str "service")
      let r := bootstrapLoopOps ops services (st2, [], fs)
      BootResult.ok r.1 r.2.1 r.2.2

theorem bootstrapLoopOps_cons (ops : BootstrapOps) (s : Str) (t : List Str)
    (acc : KeystoneState × List Str × FS) :
    bootstrapLoopOps ops (s :: t) acc =
      if ops.userOk s then
        (let st := ensureGrantOp (ops.grantOk s) (ensureUser acc.1 s) s
         if ops.credOk s then
           bootstrapLoopOps ops t ({ st with appCreds := st.appCreds ++ [s] },
             acc.2.1 ++ [s],
             if ops.persistOk s then fsWrite acc.2.2 (credPath s) else acc.2.2)
         else bootstrapLoopOps ops t (st, acc.2.1, acc.2.2))
      else acc := rfl

theorem bootstrapService_eq_stepOps (env : BootstrapEnv)
    (acc : KeystoneState × List Str × FS) (s : Str) :
    bootstrapService env acc s =
      (let st := ensureGrantOp (env.grantOk s) (ensureUser acc.1 s) s
       if env.credOk s then
         ({ st with appCreds := st.appCreds ++ [s] }, acc.2.1 ++ [s],
           fsWrite acc.2.2 (credPath s))
       else (st, acc.2.1, acc.2.2)) := rfl

theorem bootstrapLoopOps_lift (env : BootstrapEnv) (a b c : Bool) :
    ∀ (l : List Str) (acc : KeystoneState × List Str × FS),
      bootstrapLoopOps
          ⟨a, b, c, fun _ => true, env.grantOk, env.credOk, fun _ => true⟩ l acc =
        l.foldl (bootstrapService env) acc := by
  intro l
  induction l with
  | nil => intro acc; rfl
  | cons s t ih =>
    intro acc
    rw [List.foldl_cons, ← ih (bootstrapService env acc s),
      bootstrapLoopOps_cons, bootstrapService_eq_stepOps env acc s]
    dsimp only
    cases hc : env.credOk s with
    | true => rfl
    | false => rfl

/-- Bridge: on a coarse oracle (session, project, role, user and
persist steps all succeeding) the two embeddings agree, so the
idempotence and file-permission theorems proved on the coarse model
state the same program behavior. -/
theorem create_application_credentials_ops_lift (env : BootstrapEnv)
    (st : KeystoneState) (fs : FS) :
    create_application_credentials_ops
        ⟨env.adminOk, true, true, fun _ => true, env.grantOk, env.credOk, fun _ => true⟩
        st fs =
      create_application_credentials env st fs := by
  unfold create_application_credentials_ops create_application_credentials
  dsimp only
  cases ha : env.adminOk with
  | false => rfl
  | true =>
    rw [if_neg (by decide : ¬((true : Bool) = false)),
      if_neg (by decide : ¬((true : Bool) = false)),
      if_neg (by decide : ¬((true : Bool) = false)), if_pos rfl,
      bootstrapLoopOps_lift env true true true]

theorem bootstrapLoopOps_creds (ops : BootstrapOps) :
    ∀ (l : List Str) (acc : KeystoneState × List Str × FS),
      (∀ s ∈ l, ops.userOk s = true) →
      (bootstrapLoopOps ops l acc).2.1 = acc.2.1 ++ l.filter (fun s => ops.credOk s) := by
  intro l
  induction l with
  | nil => intro acc _; simp [bootstrapLoopOps]
  | cons s t ih =>
    intro acc h
    have hs : ops.userOk s = true := h s (List.mem_cons_self s t)
    have ht : ∀ x ∈ t, ops.userOk x = true := fun x hx => h x (List.mem_cons_of_mem s hx)
    by_cases hc : ops.credOk s = true <;>
      simp [bootstrapLoopOps, hs, hc, ih _ ht, List.filter_cons]

theorem bootstrapLoopOps_abort (ops : BootstrapOps) :
    ∀ (pre : List Str) (u : Str) (post : List Str) (acc : KeystoneState × List Str × FS),
      (∀ s ∈ pre, ops.userOk s = true) → ops.userOk u = false →
      bootstrapLoopOps ops (pre ++ u :: post) acc = bootstrapLoopOps ops pre acc := by
  intro pre
  induction pre with
  | nil =>
    intro u post acc _ hu
    simp [bootstrapLoopOps, hu]
  | cons s t ih =>
    intro u post acc h hu
    have hs : ops.userOk s = true := h s (List.mem_cons_self s t)
    have ht : ∀ x ∈ t, ops.userOk x = true := fun x hx => h x (List.mem_cons_of_mem s hx)
    by_cases hc : ops.credOk s = true <;>
      simp [bootstrapLoopOps, hs, hc, ih u post _ ht hu]

/-- C7 counterexample.  The claim states that a failure establishing
the administrative identity session, or the shared service project or
role, makes the process exit with a non-zero status.  Run the
bootstrap against an empty identity state with the session and the
project phase succeeding and the role phase raising: the outer
`except` (entrypoint.py lines 294–296) only logs, and the function
RETURNS normally — a `BootResult.ok`, not a process exit — carrying
the already-created service project and an empty credential map, and
`configure_keystone` then continues the startup sequence. -/
theorem C7_counterexample :
    create_application_credentials_ops
        ⟨true, true, false, fun _ => true, fun _ => true, fun _ => true, fun _ => true⟩
        ⟨[], [], [], [], []⟩ [] =
      BootResult.ok ⟨[str "service"], [], [], [], []⟩ [] [] := rfl

/-- C7 (amended): the credential bootstrap never exits the process —
every failure path ends in a normal return and the startup sequence
continues.  A failure establishing the administrative session or the
project phase returns before any mutation with an empty credential
map; a failure of the role phase also abandons the bootstrap with an
empty map, but any project created by the preceding phase remains; a
failure in one service's user lookup/create propagates to the outer
handler and ends the loop, returning the partial credential map of
the services processed before it; and when the loop runs to
completion, the returned map is exactly the services whose
credential-CREATION call succeeded — including any whose record-file
write then failed, since the dict entry is stored before the write. -/
theorem C7_bootstrap_failure_semantics (ops : BootstrapOps) (st : KeystoneState) (fs : FS) :
    (∃ st' creds fs', create_application_credentials_ops ops st fs =
      BootResult.ok st' creds fs') ∧
    (ops.sessionOk = false ∨ ops.projectOk = false →
      create_application_credentials_ops ops st fs = BootResult.ok st [] fs) ∧
    (ops.sessionOk = true → ops.projectOk = true → ops.roleOk = false →
      create_application_credentials_ops ops st fs =
        BootResult.ok (ensureProject st (str "service")) [] fs) ∧
    (ops.sessionOk = true → ops.projectOk = true → ops.roleOk = true →
      (∀ s, ops.userOk s = true) →
      ∀ st' creds fs', create_application_credentials_ops ops st fs =
        BootResult.ok st' creds fs' →
      creds = services.filter (fun s => ops.credOk s)) ∧
    (∀ (pre : List Str) (u : Str) (post : List Str), services = pre ++ u :: post →
      (∀ s ∈ pre, ops.userOk s = true) → ops.userOk u = false →
      ops.sessionOk = true → ops.projectOk = true → ops.roleOk = true →
      ∀ st' creds fs', create_application_credentials_ops ops st fs =
        BootResult.ok st' creds fs' →
      creds = pre.filter (fun s => ops.credOk s)) := by
  refine ⟨?_, ?_, ?_, ?_, ?_⟩
  · unfold create_application_credentials_ops
    split_ifs <;> exact ⟨_, _, _, rfl⟩
  · intro h
    unfold create_application_credentials_ops
    rcases h with h | h
    · rw [if_pos h]
    · by_cases h1 : ops.sessionOk = false
      · rw [if_pos h1]
      · rw [if_neg h1, if_pos h]
  · intro h1 h2 h3
    unfold create_application_credentials_ops
    rw [if_neg (by simp [h1]), if_neg (by simp [h2]), if_pos h3]
  · intro h1 h2 h3 hu st' creds fs' heq
    unfold create_application_credentials_ops at heq
    rw [if_neg (by simp [h1]), if_neg (by simp [h2]),
      if_neg (by simp [h3])] at heq
    dsimp only at heq
    cases heq
    rw [bootstrapLoopOps_creds ops services _ (fun s _ => hu s)]
    simp
  · intro pre u post hserv hpre hu h1 h2 h3 st' creds fs' heq
    unfold create_application_credentials_ops at heq
    rw [if_neg (by simp [h1]), if_neg (by simp [h2]),
      if_neg (by simp [h3])] at heq
    dsimp only at heq
    cases heq
    rw [hserv, bootstrapLoopOps_abort ops pre u post _ hpre hu,
      bootstrapLoopOps_creds ops pre _ hpre]
    simp

/-- C7 witness: a failing administrative session against a non-empty
identity state ends in a normal return with that state and no
credentials. -/
theorem C7_witness :
    create_application_credentials_ops
        ⟨false, true, true, fun _ => true, fun _ => true, fun _ => true, fun _ => true⟩
        ⟨[str "p"], [], [], [], []⟩ [] =
      BootResult.ok ⟨[str "p"], [], [], [], []⟩ [] [] :=
  (C7_bootstrap_failure_semantics
    ⟨false, true, true, fun _ => true, fun _ => true, fun _ => true, fun _ => true⟩
    ⟨[str "p"], [], [], [], []⟩ []).2.1 (Or.inl rfl)

/-! ### Lemmas about the filesystem model -/

theorem getAssoc_append {α : Type} (l1 l2 : List (Str × α)) (k : Str) :
    getAssoc (l1 ++ l2) k = (getAssoc l1 k).orElse (fun _ => getAssoc l2 k) := by
  unfold getAssoc
  rw [List.find?_append]
  cases List.find? (fun p => p.1 = k) l1 <;> simp

theorem fsGet_fsWrite_mono (fs : FS) (q p : Str) (m : Nat) (h : fsGet fs p = some m) :
    fsGet (fsWrite fs q) p = some m := by
  unfold fsWrite
  cases hq : fsGet fs q with
  | some _ => exact h
  | none =>
    simp only
    unfold fsGet at h ⊢
    rw [getAssoc_append, h]
    rfl

theorem fsGet_fsWrite_self_none (fs : FS) (q : Str) (h : fsGet fs q = none) :
    fsGet (fsWrite fs q) q = some 0o644 := by
  unfold fsWrite
  rw [h]
  unfold fsGet at h ⊢
  rw [getAssoc_append, h]
  simp [getAssoc_cons]

theorem fsGet_fsWrite_other (fs : FS) (q p : Str) (hne : p ≠ q) :
    fsGet (fsWrite fs q) p = fsGet fs p := by
  unfold fsWrite
  cases hq : fsGet fs q with
  | some _ => rfl
  | none =>
    simp only
    unfold fsGet
    rw [getAssoc_append, getAssoc_cons, if_neg (Ne.symm hne)]
    cases getAssoc fs p <;> rfl

/-- The filesystem effect of the bootstrap loop: one conditional record
write per service, in order. -/
def credFsFold (env : BootstrapEnv) (l : List Str) (fs : FS) : FS :=
  l.foldl (fun a s => if env.credOk s then fsWrite a (credPath s) else a) fs

theorem bootstrapService_fs (env : BootstrapEnv)
    (acc : KeystoneState × List Str × FS) (svc : Str) :
    (bootstrapService env acc svc).2.2 =
      if env.credOk svc then fsWrite acc.2.2 (credPath svc) else acc.2.2 := by
  unfold bootstrapService
  dsimp only
  split <;> rfl

theorem foldServices_fs (env : BootstrapEnv) :
    ∀ (l : List Str) (acc : KeystoneState × List Str × FS),
      (l.foldl (bootstrapService env) acc).2.2 = credFsFold env l acc.2.2 := by
  intro l
  induction l with
  | nil => intro acc; rfl
  | cons s t ih =>
    intro acc
    rw [List.foldl_cons, ih]
    show credFsFold env t (bootstrapService env acc s).2.2 =
      credFsFold env t (if env.credOk s then fsWrite acc.2.2 (credPath s) else acc.2.2)
    rw [bootstrapService_fs]

theorem credFsFold_mono (env : BootstrapEnv) :
    ∀ (l : List Str) (fs : FS) (p : Str) (m : Nat),
      fsGet fs p = some m → fsGet (credFsFold env l fs) p = some m := by
  intro l
  induction l with
  | nil => intro fs p m h; exact h
  | cons s t ih =>
    intro fs p m h
    show fsGet (credFsFold env t _) p = some m
    apply ih
    by_cases hc : env.credOk s = true
    · simp only [hc, if_true]
      exact fsGet_fsWrite_mono fs _ p m h
    · simp only [hc, if_false]
      exact h

theorem credFsFold_writes (env : BootstrapEnv) :
    ∀ (l : List Str) (fs : FS) (svc : Str), svc ∈ l → env.credOk svc = true →
      fsGet fs (credPath svc) = none →
      (∀ s ∈ l, credPath s = credPath svc → s = svc) →
      fsGet (credFsFold env l fs) (credPath svc) = some 0o644 := by
  intro l
  induction l with
  | nil => intro fs svc h; cases h
  | cons s t ih =>
    intro fs svc hmem hok hnone hinj
    by_cases hs : s = svc
    · subst hs
      show fsGet (credFsFold env t _) (credPath s) = some 0o644
      apply credFsFold_mono
      simp only [hok, if_true]
      exact fsGet_fsWrite_self_none fs _ hnone
    · have hpath : credPath s ≠ credPath svc :=
        fun hp => hs (hinj s (List.mem_cons_self s t) hp)
      have hmem' : svc ∈ t := by
        rcases List.mem_cons.mp hmem with h | h
        · exact absurd h.symm hs
        · exact h
      have hinj' : ∀ x ∈ t, credPath x = credPath svc → x = svc :=
        fun x hx => hinj x (List.mem_cons_of_mem s hx)
      show fsGet (credFsFold env t _) (credPath svc) = some 0o644
      apply ih _ svc hmem' hok _ hinj'
      by_cases hc : env.credOk s = true
      · simp only [hc, if_true]
        rw [fsGet_fsWrite_other fs _ _ (Ne.symm hpath)]
        exact hnone
      · simp only [hc, if_false]
        exact hnone

theorem bootRun_fs (env : BootstrapEnv) (st : KeystoneState) (fs : FS)
    (ha : env.adminOk = true) :
    ∃ st' creds, create_application_credentials env st fs =
      BootResult.ok st' creds (credFsFold env services fs) := by
  unfold create_application_credentials
  rw [ha, if_pos rfl]
  dsimp only
  rw [foldServices_fs env services]
  exact ⟨_, _, rfl⟩

/-- C8 counterexample.  The claim states that every persisted credential
record file has owner-only permissions before any service starts.  The
record files are written by `create_application_credentials`
(entrypoint.py lines 285–287) with a plain `open(..., 'w')` and are
never `chmod`-ed, so with the default umask they keep mode `0o644`:
after a fully successful boot from an empty filesystem, Glance's record
file has mode `0o644`, whose group/world bits (`0o644 % 0o100 = 0o44`)
are non-zero — not owner-only. -/
theorem C8_counterexample :
    fsGet (bootFilesystem ⟨true, fun _ => true, fun _ => true⟩ ⟨[], [], [], [], []⟩ [])
        (credPath (str "glance")) = some 0o644 ∧
    0o644 % 0o100 ≠ 0 := ⟨by decide, by decide⟩

/-- C8 (amended): before any service process starts, the two Keystone
key-material files exist with owner-only permissions `0o600` (they are
chmod-ed by `init_keystone_fernet_keys`); each successfully issued
service's credential record file also exists by then — it is written
during that service's own bootstrap iteration, before the next service
is processed — but it keeps the default permissions `0o644`: the
owner-only restriction claimed for credential records is never
applied. -/
theorem C8_boot_file_permissions (env : BootstrapEnv) (st : KeystoneState) :
    fsGet (bootFilesystem env st []) fernetKey0 = some 0o600 ∧
    fsGet (bootFilesystem env st []) credentialKey0 = some 0o600 ∧
    (env.adminOk = true → ∀ svc ∈ services, env.credOk svc = true →
      fsGet (bootFilesystem env st []) (credPath svc) = some 0o644) := by
  have hinit : init_keystone_fernet_keys [] =
      [(fernetKey0, 0o600), (credentialKey0, 0o600)] := by decide
  unfold bootFilesystem
  rw [hinit]
  dsimp only
  cases ha : env.adminOk with
  | false =>
    have hrun : create_application_credentials env st
        [(fernetKey0, 0o600), (credentialKey0, 0o600)] =
        BootResult.ok st [] [(fernetKey0, 0o600), (credentialKey0, 0o600)] := by
      unfold create_application_credentials
      rw [ha, if_neg Bool.false_ne_true]
    rw [hrun]
    dsimp only
    refine ⟨by decide, by decide, ?_⟩
    intro hT
    exact absurd hT (by decide)
  | true =>
    obtain ⟨st', creds, hrun⟩ :=
      bootRun_fs env st [(fernetKey0, 0o600), (credentialKey0, 0o600)] ha
    rw [hrun]
    refine ⟨?_, ?_, ?_⟩
    · exact credFsFold_mono env services _ _ _ (by decide)
    · exact credFsFold_mono env services _ _ _ (by decide)
    · intro _ svc hsvc hok
      simp only [services] at hsvc
      fin_cases hsvc <;>
        exact credFsFold_writes env services _ _ (by decide) hok (by decide) (by decide)

/-- C8 witness: after a fully successful boot, Nova's credential record
exists with mode `0o644`. -/
theorem C8_witness :
    fsGet (bootFilesystem ⟨true, fun _ => true, fun _ => true⟩ ⟨[], [], [str "u"], [], []⟩ [])
        (credPath (str "nova")) = some 0o644 :=
  (C8_boot_file_permissions ⟨true, fun _ => true, fun _ => true⟩
    ⟨[], [], [str "u"], [], []⟩).2.2 rfl (str "nova") (by decide) rfl

/-! ### Per-service configuration and schema-migration dispatch -/

/-- `enable_keystone_application_credentials` (entrypoint.py lines
155–173). -/
def enable_keystone_application_credentials (cfg : Config) : Config :=
  let cfg := setOpt cfg (str "application_credential") (str "driver") (str "sql")
  setOpt cfg (str "application_credential") (str "enable") (str "True")

/-- Python `needle in hay` on strings: substring containment. -/
def containsSub (hay needle : Str) : Bool := decide (needle <:+: hay)

/-- `configure_keystone` (lines 331–361): merge, resolve the database,
enable application credentials, run `keystone-manage db_sync` and
`bootstrap` — a failure of either calls `sys.exit(1)` (line 358) — then
run the credential bootstrap.  `syncOk` is the success of the two
`keystone-manage` commands. -/
def configure_keystone (tmpl : Config) (env : List (Str × Str)) (db : DbEnv)
    (syncOk : Bool) (benv : BootstrapEnv) (st : KeystoneState) (fs : FS) :
    Except Nat (Config × BootResult) :=
  let cfg := merge_config (str "keystone") env tmpl
  let cfg := configure_database_connection (str "keystone") db cfg
  let cfg := enable_keystone_application_credentials cfg
  if syncOk then Except.ok (cfg, create_application_credentials benv st fs)
  else Except.error 1

/-- `configure_glance` (lines 363–376): merge, resolve the database,
wire credentials; a `glance-manage db_sync` failure calls
`sys.exit(1)` (line 376). -/
def configure_glance (tmpl : Config) (env : List (Str × Str)) (db : DbEnv)
    (store : CredStore) (migOk : Bool) : Except Nat Config :=
  let cfg := merge_config (str "glance") env tmpl
  let cfg := configure_database_connection (str "glance") db cfg
  let cfg := configure_service_with_application_credential store (str "glance") cfg
  if migOk then Except.ok cfg else Except.error 1

/-- `configure_cinder` (lines 378–391): a `cinder-manage db sync`
failure calls `sys.exit(1)` (line 391). -/
def configure_cinder (tmpl : Config) (env : List (Str × Str)) (db : DbEnv)
    (store : CredStore) (migOk : Bool) : Except Nat Config :=
  let cfg := merge_config (str "cinder") env tmpl
  let cfg := configure_database_connection (str "cinder") db cfg
  let cfg := configure_service_with_application_credential store (str "cinder") cfg
  if migOk then Except.ok cfg else Except.error 1

/-- `configure_ironic` (lines 520–533): an `ironic-dbsync` failure
calls `sys.exit(1)` (line 533). -/
def configure_ironic (tmpl : Config) (env : List (Str × Str)) (db : DbEnv)
    (store : CredStore) (migOk : Bool) : Except Nat Config :=
  let cfg := merge_config (str "ironic") env tmpl
  let cfg := configure_database_connection (str "ironic") db cfg
  let cfg := configure_service_with_application_credential store (str "ironic") cfg
  if migOk then Except.ok cfg else Except.error 1

/-- The two schema-initialization strategies of the migration
dispatcher. -/
inductive MigStrategy
  | directSchema
  | nativeMigration
deriving DecidableEq

/-- `'sqlite' in config['database']['connection'].lower()`, treating a
missing connection option as SQLite, exactly as entrypoint.py lines
409–415 do. -/
def isSqliteCfg (cfg : Config) : Bool :=
  match lookupOpt cfg (str "database") (str "connection") with
  | some c => containsSub (lowerStr c) (str "sqlite")
  | none => true

/-- `configure_neutron` (lines 393–518): merge, resolve the database,
wire credentials and pick the migration strategy from the resolved
connection string.  EITHER strategy's failure is only logged (lines
508–510 for the direct-schema path, 516–518 for `neutron-db-manage`):
the function returns normally whatever `migOk` is. -/
def configure_neutron (tmpl : Config) (env : List (Str × Str)) (db : DbEnv)
    (store : CredStore) (_migOk : Bool) : Except Nat (Config × MigStrategy) :=
  let cfg := merge_config (str "neutron") env tmpl
  let cfg := configure_database_connection (str "neutron") db cfg
  let cfg := configure_service_with_application_credential store (str "neutron") cfg
  let strat := if isSqliteCfg cfg then MigStrategy.directSchema
    else MigStrategy.nativeMigration
  Except.ok (cfg, strat)

/-- The Nova-specific environment lookups: `IRONIC_SERVICE_PASSWORD`,
`NEUTRON_SERVICE_PASSWORD` and the `NOVA_API_DB_*` variables. -/
structure NovaEnv where
  ironicServicePassword : Option Str
  neutronServicePassword : Option Str
  apiDbHost : Option Str
  apiDbUser : Option Str
  apiDbPass : Option Str
  apiDbName : Option Str

/-- The `[ironic]` block of `configure_nova` (lines 552–571):
application-credential fields when Ironic's record file exists,
password-auth fields with environment/service-name defaults
otherwise. -/
def novaIronicSection (store : CredStore) (ironicPw : Option Str) (cfg : Config) : Config :=
  match store (str "ironic") with
  | some c =>
    let cfg := setOpt cfg (str "ironic") (str "auth_type") (str "v3applicationcredential")
    let cfg := setOpt cfg (str "ironic") (str "auth_url") (str "http://localhost:5000/v3")
    let cfg := setOpt cfg (str "ironic") (str "application_credential_id") c.id
    setOpt cfg (str "ironic") (str "application_credential_secret") c.secret
  | none =>
    let cfg := setOpt cfg (str "ironic") (str "auth_type") (str "password")
    let cfg := setOpt cfg (str "ironic") (str "auth_url") (str "http://localhost:5000/v3")
    let cfg := setOpt cfg (str "ironic") (str "project_name") (str "service")
    let cfg := setOpt cfg (str "ironic") (str "username") (str "ironic")
    let cfg := setOpt cfg (str "ironic") (str "password") (ironicPw.getD (str "ironic"))
    let cfg := setOpt cfg (str "ironic") (str "user_domain_name") (str "Default")
    setOpt cfg (str "ironic") (str "project_domain_name") (str "Default")

/-- The `[neutron]` block of `configure_nova` (lines 579–601), same
shape as the `[ironic]` block. -/
def novaNeutronSection (store : CredStore) (neutronPw : Option Str) (cfg : Config) : Config :=
  match store (str "neutron") with
  | some c =>
    let cfg := setOpt cfg (str "neutron") (str "auth_type") (str "v3applicationcredential")
    let cfg := setOpt cfg (str "neutron") (str "auth_url") (str "http://localhost:5000/v3")
    let cfg := setOpt cfg (str "neutron") (str "application_credential_id") c.id
    setOpt cfg (str "neutron") (str "application_credential_secret") c.secret
  | none =>
    let cfg := setOpt cfg (str "neutron") (str "auth_type") (str "password")
    let cfg := setOpt cfg (str "neutron") (str "auth_url") (str "http://localhost:5000/v3")
    let cfg := setOpt cfg (str "neutron") (str "project_name") (str "service")
    let cfg := setOpt cfg (str "neutron") (str "username") (str "neutron")
    let cfg := setOpt cfg (str "neutron") (str "password") (neutronPw.getD (str "neutron"))
    let cfg := setOpt cfg (str "neutron") (str "user_domain_name") (str "Default")
    setOpt cfg (str "neutron") (str "project_domain_name") (str "Default")

/-- Nova's `[api_database]` block (lines 610–635).  Note that the inner
`or 'sqlite' in ...` condition (line 627) is redundant in the source:
that branch only runs when the main connection is not SQLite; it is
kept verbatim. -/
def novaApiDbSection (db : DbEnv) (nenv : NovaEnv) (cfg : Config) : Config :=
  let mainConn := (lookupOpt cfg (str "database") (str "connection")).getD []
  if containsSub mainConn (str "sqlite") then
    setOpt cfg (str "api_database") (str "connection")
      (str "sqlite:////var/lib/openstack/nova_api.sqlite")
  else
    let apiDbHost := nenv.apiDbHost.getD (db.dbHost.getD (str "localhost"))
    if apiDbHost = str "localhost" ∨ containsSub mainConn (str "sqlite") then
      setOpt cfg (str "api_database") (str "connection")
        (str "sqlite:////var/lib/openstack/nova_api.sqlite")
    else
      setOpt cfg (str "api_database") (str "connection")
        (str "postgresql://" ++ nenv.apiDbUser.getD (str "nova") ++ str ":" ++
          nenv.apiDbPass.getD (str "nova") ++ str "@" ++ apiDbHost ++ str "/" ++
          nenv.apiDbName.getD (str "nova_api"))

/-- `configure_nova` (lines 535–793): merge, resolve the database, wire
credentials, configure the `[ironic]` and `[neutron]` client blocks,
the compute driver, the API listen endpoints and the API database; the
database migration (lines 644–791) is wrapped in a `try` whose handler
only logs (lines 789–791), so the function returns normally whatever
`_migOk` is. -/
def configure_nova (tmpl : Config) (env : List (Str × Str)) (db : DbEnv)
    (store : CredStore) (nenv : NovaEnv) (_migOk : Bool) : Except Nat Config :=
  let cfg := merge_config (str "nova") env tmpl
  let cfg := configure_database_connection (str "nova") db cfg
  let cfg := configure_service_with_application_credential store (str "nova") cfg
  let cfg := novaIronicSection store nenv.ironicServicePassword cfg
  let cfg := setOpt cfg (str "DEFAULT") (str "compute_driver") (str "ironic.IronicDriver")
  let cfg := novaNeutronSection store nenv.neutronServicePassword cfg
  let cfg := setOpt cfg (str "DEFAULT") (str "osapi_compute_listen") (str "0.0.0.0")
  let cfg := setOpt cfg (str "DEFAULT") (str "osapi_compute_listen_port") (str "8774")
  let cfg := setOpt cfg (str "DEFAULT") (str "metadata_listen") (str "0.0.0.0")
  let cfg := setOpt cfg (str "DEFAULT") (str "metadata_listen_port") (str "8775")
  let cfg := novaApiDbSection db nenv cfg
  Except.ok cfg

theorem lookup_setOpt_ne_sect {cfg : Config} {sect opt v sect' opt' : Str}
    (h : sect' ≠ sect) :
    lookupOpt (setOpt cfg sect opt v) sect' opt' = lookupOpt cfg sect' opt' := by
  rw [lookup_setOpt]
  exact if_neg (fun hc => h hc.1)

theorem lookup_novaNeutronSection_ne {store : CredStore} {pw : Option Str}
    {cfg : Config} {sect opt : Str} (h : sect ≠ str "neutron") :
    lookupOpt (novaNeutronSection store pw cfg) sect opt = lookupOpt cfg sect opt := by
  unfold novaNeutronSection
  cases store (str "neutron") with
  | none =>
    rw [lookup_setOpt_ne_sect h, lookup_setOpt_ne_sect h, lookup_setOpt_ne_sect h,
      lookup_setOpt_ne_sect h, lookup_setOpt_ne_sect h, lookup_setOpt_ne_sect h,
      lookup_setOpt_ne_sect h]
  | some c =>
    rw [lookup_setOpt_ne_sect h, lookup_setOpt_ne_sect h, lookup_setOpt_ne_sect h,
      lookup_setOpt_ne_sect h]

theorem lookup_novaApiDbSection_ne {db : DbEnv} {nenv : NovaEnv} {cfg : Config}
    {sect opt : Str} (h : sect ≠ str "api_database") :
    lookupOpt (novaApiDbSection db nenv cfg) sect opt = lookupOpt cfg sect opt := by
  unfold novaApiDbSection
  dsimp only
  split_ifs with h1 h2 <;> exact lookup_setOpt_ne_sect h

/-- C5 (amended): when no credential record file exists for a service,
the wiring step `configure_service_with_application_credential` does
not fail — it returns the config completely unchanged and writes no
auth fields at all to `[keystone_authtoken]`.  Password-based fallback
fields exist only in `configure_nova`'s client blocks: with no Ironic
record file, Nova's `[ironic]` section gets password auth with
username/project/domain defaults and the password taken from
`IRONIC_SERVICE_PASSWORD`, defaulting to the service name. -/
theorem C5_missing_credential_fallback :
    (∀ (store : CredStore) (svc : Str) (cfg : Config), store svc = none →
      configure_service_with_application_credential store svc cfg = cfg) ∧
    (∀ (tmpl : Config) (env : List (Str × Str)) (db : DbEnv) (store : CredStore)
        (nenv : NovaEnv) (migOk : Bool) (cfg : Config),
      store (str "ironic") = none →
      configure_nova tmpl env db store nenv migOk = Except.ok cfg →
      lookupOpt cfg (str "ironic") (str "auth_type") = some (str "password") ∧
      lookupOpt cfg (str "ironic") (str "username") = some (str "ironic") ∧
      lookupOpt cfg (str "ironic") (str "password") =
        some (nenv.ironicServicePassword.getD (str "ironic")) ∧
      lookupOpt cfg (str "ironic") (str "project_name") = some (str "service") ∧
      lookupOpt cfg (str "ironic") (str "user_domain_name") = some (str "Default") ∧
      lookupOpt cfg (str "ironic") (str "project_domain_name") = some (str "Default")) := by
  constructor
  · intro store svc cfg h
    unfold configure_service_with_application_credential
    rw [h]
  · intro tmpl env db store nenv migOk cfg hnone heq
    unfold configure_nova at heq
    dsimp only at heq
    cases heq
    refine ⟨?_, ?_, ?_, ?_, ?_, ?_⟩ <;>
      [skip; skip; skip; skip; skip; skip] <;>
      · rw [lookup_novaApiDbSection_ne (by decide)]
        rw [lookup_setOpt_ne_sect (by decide), lookup_setOpt_ne_sect (by decide),
          lookup_setOpt_ne_sect (by decide), lookup_setOpt_ne_sect (by decide)]
        rw [lookup_novaNeutronSection_ne (by decide)]
        rw [lookup_setOpt_ne_sect (by decide)]
        unfold novaIronicSection
        rw [hnone]
        simp +decide [lookup_setOpt]

/-- The Nova configuration produced with no credential records and an
otherwise empty environment, used to witness the amended C5. -/
def novaCfgW : Config :=
  match configure_nova [] [] ⟨none, none, none, none, none⟩ (fun _ => none)
      ⟨none, none, none, none, none, none⟩ true with
  | .ok c => c
  | .error _ => []

/-- C5 witness: with no Ironic credential record, Nova's `[ironic]`
section holds the password-auth username default. -/
theorem C5_witness :
    lookupOpt novaCfgW (str "ironic") (str "username") = some (str "ironic") :=
  (C5_missing_credential_fallback.2 [] [] ⟨none, none, none, none, none⟩
    (fun _ => none) ⟨none, none, none, none, none, none⟩ true novaCfgW rfl rfl).2.1

/-- C6 counterexample.  The claim states that a schema-migration
failure is non-fatal for every service.  For Glance the `except` block
around `glance-manage db_sync` calls `sys.exit(1)` (entrypoint.py lines
374–376): with a failing migration, `configure_glance` exits the
process with status 1 instead of continuing. -/
theorem C6_counterexample :
    configure_glance [] [] ⟨none, none, none, none, none⟩ (fun _ => none) false =
      Except.error 1 := rfl

/-- C6 (amended): a schema-migration failure is non-fatal to the boot
only for Neutron and Nova, whose handlers merely log and continue; for
Keystone (`db_sync`/`bootstrap`), Glance, Cinder and Ironic, a
migration failure makes the process exit with status 1, aborting the
startup sequence. -/
theorem C6_migration_failure_semantics (tmpl : Config) (env : List (Str × Str))
    (db : DbEnv) (store : CredStore) (benv : BootstrapEnv) (st : KeystoneState)
    (fs : FS) (nenv : NovaEnv) :
    configure_glance tmpl env db store false = Except.error 1 ∧
    configure_cinder tmpl env db store false = Except.error 1 ∧
    configure_ironic tmpl env db store false = Except.error 1 ∧
    configure_keystone tmpl env db false benv st fs = Except.error 1 ∧
    (∃ r, configure_neutron tmpl env db store false = Except.ok r) ∧
    (∃ c, configure_nova tmpl env db store nenv false = Except.ok c) :=
  ⟨rfl, rfl, rfl, rfl, ⟨_, rfl⟩, ⟨_, rfl⟩⟩

/-! ### Process supervisor (`start_services`) -/

/-- Observable events of the supervision phase. -/
inductive SupEvent
  | launch (name : Str)
  | sleep (seconds : Nat)
  | logExitUnexpected (name : Str)
  | exitProcess (code : Nat)
deriving DecidableEq

/-- The nine managed processes in launch and poll order (entrypoint.py
lines 997–1037 and 1047–1073). -/
def managedProcesses : List Str :=
  [str "unified", str "glance-api", str "cinder-api", str "neutron-server",
    str "ironic-api", str "nova-api", str "nova-conductor", str "nova-scheduler",
    str "nova-compute"]

/-- Index of the first process whose `poll()` returned non-`None` (the
process has exited), scanning in the fixed order the loop body checks;
`polled` holds one entry per managed process. -/
def firstExited : List (Option Nat) → Option Nat
  | [] => none
  | some _ :: _ => some 0
  | none :: rest => (firstExited rest).map (· + 1)

/-- The monitoring loop (entrypoint.py lines 1042–1073): each iteration
sleeps 60 seconds, then polls every process in order; the first exited
process is logged and the supervisor exits with status 1; otherwise the
loop repeats.  `polls t` gives the poll results at tick `t`; `fuel`
bounds the unrolling of the (otherwise infinite) `while True` loop. -/
def superviseLoop (names : List Str) (polls : Nat → List (Option Nat)) :
    Nat → List SupEvent
  | 0 => []
  | fuel + 1 =>
    SupEvent.sleep 60 ::
      match firstExited (polls 0) with
      | some i => [SupEvent.logExitUnexpected (names.getD i (str "")),
          SupEvent.exitProcess 1]
      | none => superviseLoop names (fun t => polls (t + 1)) fuel

/-- `start_services` (entrypoint.py lines 888–1073): launch the unified
gateway and the eight OpenStack service processes in a fixed order,
then run the monitoring loop; no process is ever launched again. -/
def start_services (polls : Nat → List (Option Nat)) (fuel : Nat) : List SupEvent :=
  managedProcesses.map SupEvent.launch ++ superviseLoop managedProcesses polls fuel

theorem superviseLoop_exits (names : List Str) :
    ∀ (k fuel : Nat) (polls : Nat → List (Option Nat)) (i : Nat), k < fuel →
      firstExited (polls k) = some i → (∀ j, j < k → firstExited (polls j) = none) →
      superviseLoop names polls fuel =
        List.replicate (k + 1) (SupEvent.sleep 60) ++
          [SupEvent.logExitUnexpected (names.getD i (str "")), SupEvent.exitProcess 1] := by
  intro k
  induction k with
  | zero =>
    intro fuel polls i hk hdead _
    cases fuel with
    | zero => exact absurd hk (Nat.not_lt_zero 0)
    | succ f => simp [superviseLoop, hdead]
  | succ k ih =>
    intro fuel polls i hk hdead halive
    cases fuel with
    | zero => exact absurd hk (Nat.not_lt_zero _)
    | succ f =>
      have h0 : firstExited (polls 0) = none := halive 0 (Nat.succ_pos k)
      have step : superviseLoop names polls (f + 1) =
          SupEvent.sleep 60 :: superviseLoop names (fun t => polls (t + 1)) f := by
        simp [superviseLoop, h0]
      rw [step, ih f (fun t => polls (t + 1)) i (by omega) hdead
        (fun j hj => halive (j + 1) (by omega))]
      simp [List.replicate_succ]

theorem superviseLoop_no_launch (names : List Str) :
    ∀ (fuel : Nat) (polls : Nat → List (Option Nat)) (n : Str),
      SupEvent.launch n ∉ superviseLoop names polls fuel := by
  intro fuel
  induction fuel with
  | zero => intro polls n; simp [superviseLoop]
  | succ f ih =>
    intro polls n
    cases h : firstExited (polls 0) with
    | some i => simp [superviseLoop, h]
    | none => simp [superviseLoop, h, ih]

/-- C9: if at poll tick `k` some managed process has exited (and none
had exited at the earlier ticks), the supervisor's event trace is
exactly the nine initial launches, `k + 1` sleeps of 60 time units
(one polling interval after the tick at which the exit first became
observable), the log line naming the exited process, and a process
exit with the non-zero status 1; and the monitoring loop never emits a
launch event, so no replacement process is ever started. -/
theorem C9_supervisor_fail_fast (polls : Nat → List (Option Nat)) (fuel k i : Nat)
    (hk : k < fuel) (hdead : firstExited (polls k) = some i)
    (halive : ∀ j, j < k → firstExited (polls j) = none) :
    start_services polls fuel =
      managedProcesses.map SupEvent.launch ++
        (List.replicate (k + 1) (SupEvent.sleep 60) ++
          [SupEvent.logExitUnexpected (managedProcesses.getD i (str "")),
            SupEvent.exitProcess 1]) ∧
    (∀ n, SupEvent.launch n ∉ superviseLoop managedProcesses polls fuel) :=
  ⟨by
    unfold start_services
    rw [superviseLoop_exits managedProcesses k fuel polls i hk hdead halive],
  fun n => superviseLoop_no_launch managedProcesses fuel polls n⟩

/-- C9 witness: the second managed process (Glance API) has exited at
the very first poll; the supervisor sleeps one interval, logs it and
exits with status 1. -/
theorem C9_witness :
    start_services (fun _ => [none, some 0, none, none, none, none, none, none, none]) 3 =
      managedProcesses.map SupEvent.launch ++
        (List.replicate 1 (SupEvent.sleep 60) ++
          [SupEvent.logExitUnexpected (managedProcesses.getD 1 (str "")),
            SupEvent.exitProcess 1]) :=
  (C9_supervisor_fail_fast
    (fun _ => [none, some 0, none, none, none, none, none, none, none]) 3 0 1
    (by decide) rfl (fun j hj => absurd hj (Nat.not_lt_zero j))).1

end OpenStackEntrypoint

namespace OpenStackHealthcheck

open OpenStackEntrypoint

/-! ### Health-check probe (`healthcheck.py`) -/

/-- A parsed JSON value, as produced by `json.loads`. -/
inductive Json
  | str (s : Str)
  | num (n : Int)
  | bool (b : Bool)
  | null
  | arr (elems : List Json)
  | obj (fields : List (Str × Json))

instance : Inhabited Json := ⟨Json.null⟩

/-- The observable outcome of `urllib.request.urlopen` on the probe
URL: `none` when the request raises (endpoint unreachable, HTTP error
status raised by urllib); otherwise the status code and the response
body — `body = none` when `json.loads` raises on it (malformed
JSON). -/
structure HttpResponse where
  code : Nat
  body : Option Json

/-- `check_health` (healthcheck.py lines 14–42): any raised exception
is caught and yields `False`.  A non-200 status returns `False`; a body
that is not a JSON object makes `data.get` raise → `False`; a top-level
`status` field different from the string `healthy` returns `False`;
when a `services` key is present, `data.get("services", {}).items()`
raises unless its value is an object (mapping) — its entries are then
only iterated for logging and do not affect the result. -/
def check_health (resp : Option HttpResponse) : Bool :=
  match resp with
  | none => false
  | some r =>
    if r.code ≠ 200 then false
    else
      match r.body with
      | none => false
      | some (Json.obj fields) =>
        match getAssoc fields (str "status") with
        | some (Json.str s) =>
          if s = str "healthy" then
            match getAssoc fields (str "services") with
            | some (Json.obj _) => true
            | some _ => false
            | none => true
          else false
        | _ => false
      | some _ => false

/-- The `__main__` block (healthcheck.py lines 44–48): exit 0 when
`check_health()` returns `True`, else exit 1. -/
def healthExit (resp : Option HttpResponse) : Nat :=
  if check_health resp then 0 else 1

/-- C10 counterexample.  The claim states the probe exits 0 if and only
if the GET succeeds with status 200 and the body's top-level `status`
field equals `healthy`, with `services` entries never changing the exit
code.  A 200 response whose body is
`{"status": "healthy", "services": 3}` satisfies that condition, yet
the probe exits 1: `data.get("services", {}).items()` raises
`AttributeError` on the non-mapping value `3`, and the `except` block
returns `False` (healthcheck.py lines 31–32 and 40–42). -/
theorem C10_counterexample :
    healthExit (some ⟨200, some (Json.obj
      [(str "status", Json.str (str "healthy")),
        (str "services", Json.num 3)])⟩) = 1 := rfl

/-- C10 (amended): the probe's exit code is always 0 or 1, and it is 0
if and only if the GET succeeded with status code 200, the body is a
JSON object whose top-level `status` field is the string `healthy`,
and — when a `services` key is present — its value is itself an object
(whose entries are then only logged and never affect the exit code); a
raised exception (endpoint unreachable, malformed body, non-mapping
`services` value) yields exit code 1. -/
theorem C10_healthcheck_exit (resp : Option HttpResponse) :
    (healthExit resp = 0 ∨ healthExit resp = 1) ∧
    (healthExit resp = 0 ↔
      ∃ r fields, resp = some r ∧ r.code = 200 ∧ r.body = some (Json.obj fields) ∧
        getAssoc fields (str "status") = some (Json.str (str "healthy")) ∧
        (∀ j, getAssoc fields (str "services") = some j →
          ∃ m, j = Json.obj m)) := by
  constructor
  · unfold healthExit
    split_ifs <;> simp
  · unfold healthExit
    have hiff : check_health resp = true ↔
        ∃ r fields, resp = some r ∧ r.code = 200 ∧ r.body = some (Json.obj fields) ∧
          getAssoc fields (str "status") = some (Json.str (str "healthy")) ∧
          (∀ j, getAssoc fields (str "services") = some j → ∃ m, j = Json.obj m) := by
      cases resp with
      | none => simp [check_health]
      | some r =>
        obtain ⟨code, body⟩ := r
        by_cases hc : code = 200
        · subst hc
          cases body with
          | none => simp [check_health]
          | some j =>
            cases j with
            | obj fields =>
              simp only [check_health]
              rw [if_neg (by simp)]
              cases hst : getAssoc fields (str "status") with
              | none => simp [hst]
              | some js =>
                cases js with
                | str s =>
                  by_cases hs : s = str "healthy"
                  · subst hs
                    cases hsv : getAssoc fields (str "services") with
                    | none => simp +decide [hst, hsv]
                    | some jv =>
                      cases jv <;> simp +decide [hst, hsv]
                  · simp [hst, hs]
                | num n => simp [hst]
                | bool b => simp [hst]
                | null => simp [hst]
                | arr es => simp [hst]
                | obj fs => simp [hst]
            | str s => simp [check_health]
            | num n => simp [check_health]
            | bool b => simp [check_health]
            | null => simp [check_health]
            | arr es => simp [check_health]
        · simp [check_health, hc]
    constructor
    · intro h
      apply hiff.mp
      by_contra hb
      have hf : check_health resp = false := by
        cases hch : check_health resp
        · rfl
        · exact absurd hch hb
      rw [hf] at h
      exact absurd h (by decide)
    · intro h
      rw [if_pos (hiff.mpr h)]

/-- C10 witness: a healthy 200 response with a well-formed per-service
map exits 0. -/
theorem C10_witness :
    healthExit (some ⟨200, some (Json.obj
      [(str "status", Json.str (str "healthy")),
        (str "services", Json.obj [(str "glance", Json.str (str "running"))])])⟩) = 0 :=
  (C10_healthcheck_exit _).2.mpr
    ⟨_, _, rfl, rfl, rfl, rfl, fun _ hj =>
      ⟨[(str "glance", Json.str (str "running"))], Option.some.inj hj.symm⟩⟩

end OpenStackHealthcheck
